import Mathlib

/-!
Shallow embedding of the dingdon session hand-off and real-time routing
engine (server.js socket handlers, the WhatsApp webhook route, the chat API
route, the Twilio helper and the in-memory rate limiter), together with
proofs settling the specification claims C1-C10.

Modelling conventions:
* Statuses, messages and session rows mirror the TypeScript data model
  (`types/chatbot.ts` and the `chat_sessions` table columns touched by the
  handlers).
* Each socket / HTTP handler is translated into a pure function from its
  inputs and the relevant state to the updated state plus its observable
  effects (emitted events, outbound sends).  Database writes and the
  in-memory cache are collapsed into one record per conversation, since the
  handlers write the same fields to both.
* The Node event loop runs each handler's synchronous prefix atomically;
  sequences of events on one conversation are therefore modelled as folds
  over the per-event transition functions, in arrival order.
* Timestamps are naturals (milliseconds); external collaborator outcomes
  (Twilio send success/failure, signature validity) are Boolean parameters.
-/

namespace DingDon

/-- Conversation status, from `ChatSessionStatus` in `types/chatbot.ts`. -/
inductive Status where
  | bot
  | pending
  | in_progress
  | closed
deriving DecidableEq, Repr

/-- Message roles, from the `Roles` union in `types/chatbot.ts`. -/
inductive Role where
  | user
  | assistant
  | system
  | agent
deriving DecidableEq, Repr

/-- A chat message, from the `Message` interface (timestamp as epoch ms). -/
structure Message where
  id : String
  content : String
  role : Role
  timestamp : Nat
  agentName : Option String := none
deriving DecidableEq, Repr

/-! ## Rate limiter (`src/lib/rateLimit.ts`) -/

/-- One value of the `requestCounts` map: `{ count, resetAt }`. -/
structure RateLimitEntry where
  count : Nat
  resetAt : Nat
deriving DecidableEq, Repr

/-- `checkRateLimit` for a single key: given the current time and the key's
current map entry (`none` when the key is absent), returns the Boolean
result together with the entry stored back into the map.  Mirrors
`src/lib/rateLimit.ts` lines 21-36 (`now > entry.resetAt` restarts the
window; otherwise the count is incremented and the call is allowed iff the
incremented count does not exceed `maxRequests`). -/
def checkRateLimit (now maxRequests windowMs : Nat) (entry : Option RateLimitEntry) :
    Bool × RateLimitEntry :=
  match entry with
  | none => (true, { count := 1, resetAt := now + windowMs })
  | some e =>
      if e.resetAt < now then
        (true, { count := 1, resetAt := now + windowMs })
      else
        (decide (e.count + 1 ≤ maxRequests), { count := e.count + 1, resetAt := e.resetAt })

/-- A sequence of `checkRateLimit` calls on one key at the given times:
returns the final entry and the list of results in call order. -/
def rateLimitRun (maxRequests windowMs : Nat) (entry : Option RateLimitEntry)
    (times : List Nat) : Option RateLimitEntry × List Bool :=
  match times with
  | [] => (entry, [])
  | t :: ts =>
      let r := checkRateLimit t maxRequests windowMs entry
      let rest := rateLimitRun maxRequests windowMs (some r.2) ts
      (rest.1, r.1 :: rest.2)

theorem rateLimitRun_inWindow (maxR w c R : Nat) (ts : List Nat)
    (h : ∀ t ∈ ts, t ≤ R) :
    rateLimitRun maxR w (some { count := c, resetAt := R }) ts =
      (some { count := c + ts.length, resetAt := R },
       (List.range ts.length).map (fun i => decide (c + i + 1 ≤ maxR))) := by
  induction ts generalizing c with
  | nil => simp [rateLimitRun]
  | cons t ts ih =>
      have ht : t ≤ R := h t (List.mem_cons_self t ts)
      have hts : ∀ x ∈ ts, x ≤ R := fun x hx => h x (List.mem_cons_of_mem t hx)
      have hlt : ¬ R < t := Nat.not_lt.mpr ht
      simp only [rateLimitRun, checkRateLimit, if_neg hlt]
      rw [ih (c + 1) hts]
      have hfst : c + 1 + ts.length = c + (ts.length + 1) := by omega
      have hmap : (List.range ts.length).map (fun i => decide (c + 1 + i + 1 ≤ maxR)) =
          (List.range ts.length).map (fun i => decide (c + (i + 1) + 1 ≤ maxR)) := by
        refine List.map_congr_left ?_
        intro i _
        rw [decide_eq_decide]
        omega
      simp only [List.length_cons, List.range_succ_eq_map, List.map_cons, List.map_map,
        Function.comp, Nat.succ_eq_add_one]
      rw [hfst, hmap]
      simp [Function.comp_def]

theorem rate_limit_count_true (n maxR : Nat) :
    (((List.range n).map (fun k => decide (k + 1 ≤ maxR))).count true) = min n maxR := by
  induction n with
  | zero => simp
  | succ n ih =>
      rw [List.range_succ, List.map_append, List.count_append, ih]
      by_cases h : n + 1 ≤ maxR
      · simp [h]
        omega
      · simp [h]
        omega

/-- Claim C10 (counterexample): the claim's headline "admits at most
maxRequests calls per window" fails at `maxRequests = 0`: the very first
call for a key starts a new window and is admitted unconditionally, so one
call is admitted although the limit is zero. -/
theorem rate_limit_zero_max_admits_one :
    (rateLimitRun 0 60000 none [5]).2 = [true] ∧
    ¬ ((rateLimitRun 0 60000 none [5]).2.count true ≤ 0) := by
  decide

/-- Claim C10 (amended): for `maxRequests ≥ 1`, the first call for a key (or
the first call after the window expired) starts a new window counting that
call and returns true; within the unexpired window the k-th call returns
true iff `k ≤ maxRequests`, the window's expiry time is unchanged, and
exactly `min n maxRequests` of `n` calls are admitted. -/
theorem rate_limiter_window (maxR w t0 now2 : Nat) (ts : List Nat) (e : RateLimitEntry)
    (hmax : 1 ≤ maxR) (hin : ∀ t ∈ ts, t ≤ t0 + w) (hexp : e.resetAt < now2) :
    rateLimitRun maxR w none (t0 :: ts) =
      (some { count := ts.length + 1, resetAt := t0 + w },
       (List.range (ts.length + 1)).map (fun k => decide (k + 1 ≤ maxR))) ∧
    ((rateLimitRun maxR w none (t0 :: ts)).2.count true) = min (ts.length + 1) maxR ∧
    checkRateLimit now2 maxR w (some e) = (true, { count := 1, resetAt := now2 + w }) := by
  have hrun : rateLimitRun maxR w none (t0 :: ts) =
      (some { count := ts.length + 1, resetAt := t0 + w },
       (List.range (ts.length + 1)).map (fun k => decide (k + 1 ≤ maxR))) := by
    simp only [rateLimitRun, checkRateLimit]
    rw [rateLimitRun_inWindow maxR w 1 (t0 + w) ts hin]
    have hone : decide (0 + 1 ≤ maxR) = true := by
      simp
      omega
    have hmap : (List.range ts.length).map (fun i => decide (1 + i + 1 ≤ maxR)) =
        (List.range ts.length).map (fun i => decide (i + 1 + 1 ≤ maxR)) := by
      refine List.map_congr_left ?_
      intro i _
      rw [decide_eq_decide]
      omega
    rw [List.range_succ_eq_map, List.map_cons, List.map_map]
    simp only [Function.comp_def, hmap, hone]
    have hlen : 1 + ts.length = ts.length + 1 := by omega
    rw [hlen]
  refine ⟨hrun, ?_, ?_⟩
  · rw [hrun]
    exact rate_limit_count_true (ts.length + 1) maxR
  · simp only [checkRateLimit, if_pos hexp]

/-- Witness for `rate_limiter_window` at a concrete input. -/
theorem rate_limiter_window_witness :
    ((1 : Nat) ≤ 2 ∧ (∀ t ∈ [1, 2, 3], t ≤ 0 + 10) ∧ (50 : Nat) < 100) ∧
    (rateLimitRun 2 10 none (0 :: [1, 2, 3])).2.count true = 2 := by
  refine ⟨⟨by decide, by decide, by decide⟩, ?_⟩
  have h := (rate_limiter_window 2 10 0 100 [1, 2, 3]
    { count := 1, resetAt := 50 } (by decide) (by decide) (by decide)).2.1
  simpa using h

/-! ## In-memory session cache and the claim protocol (server.js) -/

/-- One entry of the in-memory store `workspacesData[workspaceId][sessionId]`
(status, history, assignedAgentId), as created by the notify-handoff route. -/
structure MemSession where
  status : Status
  history : List Message
  assignedAgentId : Option String
deriving DecidableEq, Repr

/-- The event the `agent_joined` handler emits back to the requesting
socket: `assignment_success` (with the history) or `assignment_failure`. -/
inductive ClaimOutcome where
  | assignment_success
  | assignment_failure
deriving DecidableEq, Repr

/-- The `agent_joined` handler's check-and-set on the in-memory cache entry
(server.js lines 435-528).  The guard `!workspaceId || !sessionId ||
!agentId` returns early without emitting anything; otherwise, if the cached
entry exists with status `pending`, the handler synchronously (before its
first `await`, hence atomically on the single-threaded event loop) sets
status `in_progress` and the assigned agent and later emits
`assignment_success`; in every other case it emits `assignment_failure`. -/
def agent_joined (workspaceId sessionId agentId : String) (mem : Option MemSession) :
    Option MemSession × Option ClaimOutcome :=
  if workspaceId = "" ∨ sessionId = "" ∨ agentId = "" then (mem, none)
  else
    match mem with
    | some s =>
        if s.status = Status.pending then
          (some { s with status := Status.in_progress, assignedAgentId := some agentId },
           some ClaimOutcome.assignment_success)
        else (some s, some ClaimOutcome.assignment_failure)
    | none => (none, some ClaimOutcome.assignment_failure)

/-- N claim attempts on the same conversation, serialized in arrival order
(the event loop runs each handler's synchronous check-and-set atomically).
Returns the final cache entry and each attempt's outcome. -/
def runClaims (workspaceId sessionId : String) (mem : Option MemSession)
    (agents : List String) : Option MemSession × List (Option ClaimOutcome) :=
  match agents with
  | [] => (mem, [])
  | a :: rest =>
      let r := agent_joined workspaceId sessionId a mem
      let k := runClaims workspaceId sessionId r.1 rest
      (k.1, r.2 :: k.2)

/-- Sample workspace id for concrete witnesses and counterexamples. -/
def wsA : String := "ws-1"

/-- Sample session id for concrete witnesses and counterexamples. -/
def sidA : String := "session-1"

/-- Sample agent id. -/
def agentA : String := "agent-a"

/-- Sample agent id. -/
def agentB : String := "agent-b"

/-- Sample agent id. -/
def agentC : String := "agent-c"

/-- A cache entry for a conversation waiting in the queue. -/
def pendingSession : MemSession :=
  { status := Status.pending, history := [], assignedAgentId := none }

theorem runClaims_nonpending (workspaceId sessionId : String) (s : MemSession)
    (agents : List String) (hs : ¬ s.status = Status.pending)
    (hw : ¬ workspaceId = "") (hsid : ¬ sessionId = "")
    (hv : ∀ a ∈ agents, ¬ a = "") :
    runClaims workspaceId sessionId (some s) agents =
      (some s, agents.map (fun _ => some ClaimOutcome.assignment_failure)) := by
  induction agents with
  | nil => simp [runClaims]
  | cons a rest ih =>
      have ha : ¬ a = "" := hv a (List.mem_cons_self a rest)
      have hrest : ∀ x ∈ rest, ¬ x = "" := fun x hx => hv x (List.mem_cons_of_mem a hx)
      have hguard : ¬ (workspaceId = "" ∨ sessionId = "" ∨ a = "") := by
        simp [hw, hsid, ha]
      simp only [runClaims, agent_joined, if_neg hguard, if_neg hs]
      rw [ih hrest]
      simp

/-- Claim C1: if the cached status of a conversation is `pending`, then of N
serialized `agent_joined` attempts the first one succeeds (the cache entry
becomes `in_progress` with that operator's id), every later attempt receives
the explicit `assignment_failure` rejection, and exactly one attempt
succeeds.  The check-and-set is atomic because the handler reads and writes
the cached status synchronously, before its first suspension point. -/
theorem claim_single_winner (workspaceId sessionId a0 : String) (rest : List String)
    (s : MemSession) (hw : ¬ workspaceId = "") (hsid : ¬ sessionId = "")
    (ha0 : ¬ a0 = "") (hrest : ∀ a ∈ rest, ¬ a = "")
    (hp : s.status = Status.pending) :
    (runClaims workspaceId sessionId (some s) (a0 :: rest)).1 =
      some { s with status := Status.in_progress, assignedAgentId := some a0 } ∧
    (runClaims workspaceId sessionId (some s) (a0 :: rest)).2 =
      some ClaimOutcome.assignment_success ::
        rest.map (fun _ => some ClaimOutcome.assignment_failure) ∧
    ((runClaims workspaceId sessionId (some s) (a0 :: rest)).2.count
        (some ClaimOutcome.assignment_success)) = 1 := by
  have hguard : ¬ (workspaceId = "" ∨ sessionId = "" ∨ a0 = "") := by
    simp [hw, hsid, ha0]
  have hwon : ¬ ({ s with status := Status.in_progress, assignedAgentId := some a0 } : MemSession).status = Status.pending := by
    simp
  have hrun : runClaims workspaceId sessionId (some s) (a0 :: rest) =
      (some { s with status := Status.in_progress, assignedAgentId := some a0 },
       some ClaimOutcome.assignment_success ::
         rest.map (fun _ => some ClaimOutcome.assignment_failure)) := by
    simp only [runClaims, agent_joined, if_neg hguard, if_pos hp]
    rw [runClaims_nonpending workspaceId sessionId _ rest hwon hw hsid hrest]
  refine ⟨by rw [hrun], by rw [hrun], ?_⟩
  rw [hrun]
  simp only [List.count_cons]
  have hzero : (rest.map (fun _ => some ClaimOutcome.assignment_failure)).count
      (some ClaimOutcome.assignment_success) = 0 := by
    rw [List.count_eq_zero]
    intro hmem
    rcases List.mem_map.mp hmem with ⟨x, _, hx⟩
    cases hx
  rw [hzero]
  decide

/-- Witness for `claim_single_winner` at a concrete input: three operators
race for one pending conversation; the first wins, the others are rejected. -/
theorem claim_single_winner_witness :
    (runClaims wsA sidA (some pendingSession) (agentA :: [agentB, agentC])).1 =
      some { pendingSession with status := Status.in_progress, assignedAgentId := some agentA } ∧
    (runClaims wsA sidA (some pendingSession) (agentA :: [agentB, agentC])).2 =
      some ClaimOutcome.assignment_success ::
        [agentB, agentC].map (fun _ => some ClaimOutcome.assignment_failure) ∧
    ((runClaims wsA sidA (some pendingSession) (agentA :: [agentB, agentC])).2.count
        (some ClaimOutcome.assignment_success)) = 1 :=
  claim_single_winner wsA sidA agentA [agentB, agentC] pendingSession
    (by decide) (by decide) (by decide) (by decide) (by decide)

/-! ## Status-changing handlers on a `chat_sessions` row (server.js) -/

/-- The fields of a `chat_sessions` row touched by the status handlers. -/
structure SessRow where
  status : Status
  assignedAgentId : Option String
  history : List Message
  endedAt : Option Nat
deriving DecidableEq, Repr

/-- The database write performed by a successful `agent_joined` claim
(server.js lines 459-462): `update({ status: 'in_progress',
assigned_agent_id: agentId })`. -/
def agent_joined_row (agentId : String) (row : SessRow) : SessRow :=
  { row with status := Status.in_progress, assignedAgentId := some agentId }

/-- `toggle_bot_status` (server.js lines 735-801): reads the current status
and writes `newStatus = status === 'bot' ? 'in_progress' : 'bot'`; the
`assigned_agent_id` column is not touched. -/
def toggle_bot_status (row : SessRow) : SessRow :=
  let newStatus := if row.status = Status.bot then Status.in_progress else Status.bot
  { row with status := newStatus }

/-- `close_chat` (server.js lines 998-1026): writes `status: 'closed'` and
`ended_at`; the `assigned_agent_id` column is not touched. -/
def close_chat (now : Nat) (row : SessRow) : SessRow :=
  { row with status := Status.closed, endedAt := some now }

/-- `transfer_to_queue` (server.js lines 804-857): writes `status: 'pending',
assigned_agent_id: null` unconditionally. -/
def transfer_to_queue (row : SessRow) : SessRow :=
  { row with status := Status.pending, assignedAgentId := none }

/-- The database write of the `user_message` handler (server.js lines
615-660): appends the message to the stored history; no other column. -/
def user_message (m : Message) (row : SessRow) : SessRow :=
  { row with history := row.history ++ [m] }

/-- The database write of the `agent_message` handler (server.js lines
662-733): appends the operator message to the stored history; no other
column. -/
def agent_message_row (m : Message) (row : SessRow) : SessRow :=
  { row with history := row.history ++ [m] }

/-- The `chat_sessions` upsert of the widget chat API
(`app/api/chat/route.ts` lines 164-173): on every bot reply it writes
`status: 'bot'` and replaces the history with the client-supplied history
plus the new user and assistant messages, whatever the row's prior status. -/
def chat_route_upsert (clientHistory : List Message) (userMsg botMsg : Message)
    (row : SessRow) : SessRow :=
  { row with status := Status.bot, history := clientHistory ++ [userMsg, botMsg] }

/-- A row for a conversation that has been closed. -/
def closedRow : SessRow :=
  { status := Status.closed, assignedAgentId := none, history := [], endedAt := some 5 }

/-- A cache entry whose conversation has been closed. -/
def closedSession : MemSession :=
  { status := Status.closed, history := [], assignedAgentId := none }

/-- Claim C2 (counterexample): `closed` is not terminal.  A
`toggle_bot_status` event on a closed conversation writes status `bot`
(`status === 'bot' ? 'in_progress' : 'bot'` with no terminal-state guard),
moving the conversation out of `closed`. -/
theorem closed_toggle_escapes :
    (toggle_bot_status closedRow).status = Status.bot ∧
    ¬ (toggle_bot_status closedRow).status = Status.closed := by
  decide

/-- Claim C2 (amended): once a conversation is `closed`, a claim attempt is
rejected and leaves the cache entry unchanged, a repeated close and the two
message handlers keep the status `closed`; but `toggle_bot_status` moves the
conversation to `bot`, `transfer_to_queue` moves it to `pending`, and a
widget message processed by the chat API upserts it back to `bot`. -/
theorem closed_partially_terminal (mem : MemSession) (row : SessRow)
    (workspaceId sessionId agentId : String) (m um bm : Message)
    (clientHistory : List Message) (now : Nat)
    (hmem : mem.status = Status.closed) (hrow : row.status = Status.closed)
    (hw : ¬ workspaceId = "") (hsid : ¬ sessionId = "") (haid : ¬ agentId = "") :
    agent_joined workspaceId sessionId agentId (some mem) =
      (some mem, some ClaimOutcome.assignment_failure) ∧
    (close_chat now row).status = Status.closed ∧
    (user_message m row).status = Status.closed ∧
    (agent_message_row m row).status = Status.closed ∧
    (toggle_bot_status row).status = Status.bot ∧
    (transfer_to_queue row).status = Status.pending ∧
    (chat_route_upsert clientHistory um bm row).status = Status.bot := by
  have hguard : ¬ (workspaceId = "" ∨ sessionId = "" ∨ agentId = "") := by
    simp [hw, hsid, haid]
  have hnp : ¬ mem.status = Status.pending := by
    rw [hmem]
    decide
  refine ⟨?_, rfl, ?_, ?_, ?_, rfl, rfl⟩
  · simp only [agent_joined, if_neg hguard, if_neg hnp]
  · simpa [user_message] using hrow
  · simpa [agent_message_row] using hrow
  · have hnb : ¬ row.status = Status.bot := by
      rw [hrow]
      decide
    simp [toggle_bot_status, hnb]

/-- Demo message for concrete witnesses. -/
def msgA : Message :=
  { id := "m-1", content := "hello", role := Role.user, timestamp := 10 }

/-- Demo assistant message for concrete witnesses. -/
def msgB : Message :=
  { id := "m-2", content := "hi there", role := Role.assistant, timestamp := 11 }

/-- Demo operator message for concrete witnesses. -/
def msgOp : Message :=
  { id := "m-3", content := "an operator reply", role := Role.agent, timestamp := 12,
    agentName := some ("Ana") }

/-- Witness for `closed_partially_terminal` at a concrete closed session. -/
theorem closed_partially_terminal_witness :
    (closedSession.status = Status.closed ∧ closedRow.status = Status.closed ∧
      ¬ wsA = "" ∧ ¬ sidA = "" ∧ ¬ agentA = "") ∧
    (agent_joined wsA sidA agentA (some closedSession) =
      (some closedSession, some ClaimOutcome.assignment_failure) ∧
    (close_chat 99 closedRow).status = Status.closed ∧
    (user_message msgA closedRow).status = Status.closed ∧
    (agent_message_row msgOp closedRow).status = Status.closed ∧
    (toggle_bot_status closedRow).status = Status.bot ∧
    (transfer_to_queue closedRow).status = Status.pending ∧
    (chat_route_upsert [] msgA msgB closedRow).status = Status.bot) :=
  ⟨⟨by decide, by decide, by decide, by decide, by decide⟩,
   closed_partially_terminal closedSession closedRow wsA sidA agentA msgA msgA msgB [] 99
     (by decide) (by decide) (by decide) (by decide) (by decide)⟩

/-- Claim C4 (counterexample): starting from a conversation that was just
claimed (status `in_progress`, operator assigned — a state where the
invariant holds), one accepted `toggle_bot_status` yields status `bot` while
`assigned_agent_id` stays non-null, so "assigned id non-null iff status
in_progress" fails after an accepted operation. -/
theorem toggle_breaks_assignment_invariant :
    (toggle_bot_status (agent_joined_row agentA { status := Status.pending, assignedAgentId := none, history := [], endedAt := none })).assignedAgentId = some agentA ∧
    ¬ (toggle_bot_status (agent_joined_row agentA { status := Status.pending, assignedAgentId := none, history := [], endedAt := none })).status = Status.in_progress := by
  decide

/-- Claim C4 (amended): the claim write establishes the invariant (status
`in_progress` with the operator id set) and the transfer write restores it
(status `pending` with the id cleared), but `toggle_bot_status` and
`close_chat` change the status while leaving `assigned_agent_id` untouched,
so the biconditional is not maintained across toggles and closes. -/
theorem assignment_invariant_amended (row : SessRow) (agentId : String) (now : Nat) :
    (agent_joined_row agentId row).status = Status.in_progress ∧
    (agent_joined_row agentId row).assignedAgentId = some agentId ∧
    (transfer_to_queue row).status = Status.pending ∧
    (transfer_to_queue row).assignedAgentId = none ∧
    (toggle_bot_status row).assignedAgentId = row.assignedAgentId ∧
    (close_chat now row).assignedAgentId = row.assignedAgentId ∧
    (close_chat now row).status = Status.closed := by
  refine ⟨rfl, rfl, rfl, rfl, rfl, rfl, rfl⟩

/-! ## Presence registry and disconnect handling (server.js) -/

/-- One value of the `agentSockets` map: `{ agentId, workspaceId, sessionId }`
(each possibly absent). -/
structure AgentInfo where
  agentId : Option String
  workspaceId : Option String
  sessionId : Option String
deriving DecidableEq, Repr

/-- The server's mutable maps and the in-memory session store:
`agentSockets : socketId -> AgentInfo`, `sessionSockets : sessionId -> Set
socketId`, and `workspacesData` flattened to `sessionId -> MemSession`. -/
structure ServerState where
  agentSockets : List (String × AgentInfo)
  sessionSockets : List (String × List String)
  sessions : List (String × MemSession)
deriving DecidableEq, Repr

/-- `cleanupSocketReferences` (server.js lines 350-361): deletes the socket
from `agentSockets`, removes it from every session's socket set and drops
sets that became empty.  It touches no session status or assignment. -/
def cleanupSocketReferences (socketId : String) (st : ServerState) : ServerState :=
  { st with
    agentSockets := st.agentSockets.filter (fun p => p.1 != socketId),
    sessionSockets :=
      (st.sessionSockets.map (fun p => (p.1, p.2.filter (fun x => x != socketId)))).filter
        (fun p => !p.2.isEmpty) }

/-- The `disconnect` handler (server.js lines 1051-1059): its entire effect
on shared state is `cleanupSocketReferences(socket.id)`; the commented-out
remainder ("Si era un agente, podrias querer notificar...") is not
implemented. -/
def disconnect (socketId : String) (st : ServerState) : ServerState :=
  cleanupSocketReferences socketId st

/-- Socket id used in the disconnect scenario. -/
def sockA : String := "sock-1"

/-- A server state in which conversation `sidA` is `in_progress`, assigned
to operator `agentA`, whose sole connection is `sockA`. -/
def strandedState : ServerState :=
  { agentSockets := [(sockA, { agentId := some agentA, workspaceId := some wsA, sessionId := some sidA })],
    sessionSockets := [(sidA, [sockA])],
    sessions := [(sidA, { status := Status.in_progress, history := [], assignedAgentId := some agentA })] }

/-- Claim C3 (code bug): the detach path never re-queues.  In general,
`disconnect` leaves the session store untouched; concretely, when the
assigned operator's sole connection `sockA` disconnects, the conversation
stays `in_progress` with the operator still assigned (stranded), even
though its socket sets are emptied — the repository's own audit
(BUG-006, marked FIXED) and the spec require a transition back to
`pending` with the assignment cleared. -/
theorem disconnect_no_requeue :
    (∀ (st : ServerState) (socketId : String),
      (disconnect socketId st).sessions = st.sessions) ∧
    (disconnect sockA strandedState).sessions =
      [(sidA, { status := Status.in_progress, history := [], assignedAgentId := some agentA })] ∧
    (disconnect sockA strandedState).agentSockets = [] ∧
    (disconnect sockA strandedState).sessionSockets = [] := by
  refine ⟨fun st socketId => rfl, by decide, by decide, by decide⟩

/-! ## Dashboard membership (server.js `join_agent_dashboard`) -/

/-- `join_agent_dashboard` (server.js lines 395-406), acting on the rooms of
the requesting socket: whenever a non-empty `workspaceId` is supplied the
socket joins `dashboard_<workspaceId>`.  No membership lookup of any kind
appears in the handler: the operator's identity is not even an input to the
room decision. -/
def join_agent_dashboard (workspaceId : String) (rooms : List String) : List String :=
  if workspaceId = "" then rooms else rooms ++ ["dashboard_" ++ workspaceId]

/-- `io.to('dashboard_' + workspaceId)` delivery: the sockets whose room
list contains the tenant's dashboard room. -/
def dashboardRecipients (sockets : List (String × List String)) (workspaceId : String) :
    List String :=
  (sockets.filter (fun p => p.2.contains ("dashboard_" ++ workspaceId))).map (fun p => p.1)

/-- Claim C6 (code bug): the dashboard join is bound without any membership
verification.  The room decision depends on nothing but the supplied
`workspaceId` — the operator's identity and tenant membership are not
inputs to the handler's join logic at all — so a socket with no registered
operator identity (hence a member of no tenant) that sends
`join_agent_dashboard` for `wsA` is added to the tenant's dashboard room
and is among the recipients of that tenant's broadcasts; no rejection
outcome exists in the handler. -/
theorem dashboard_join_unverified :
    join_agent_dashboard wsA [] = ["dashboard_" ++ wsA] ∧
    dashboardRecipients [(sockA, join_agent_dashboard wsA [])] wsA = [sockA] := by
  refine ⟨by decide, by decide⟩

/-! ## WhatsApp webhook signature gate (`app/api/whatsapp/webhook/route.ts`) -/

/-- A `twilio_configs` row (`lib/twilio.ts`). -/
structure TwilioConfig where
  accountSid : String
  configName : String
  whatsappNumber : String
deriving DecidableEq, Repr

/-- How far a webhook request gets before the message-processing /
state-mutating part of the handler. -/
inductive WebhookGate where
  | missingWorkspace
  | workspaceConfigError
  | twilioNotConfigured
  | invalidSignature
  | proceed
deriving DecidableEq, Repr

/-- The request-validation prefix of the webhook `POST`
(`app/api/whatsapp/webhook/route.ts` lines 16-59): missing `workspaceId`
gives 400; a workspace or Twilio-config lookup failure gives 500; then the
signature check runs ONLY when the `x-twilio-signature` header is present
(`if (twilioSignature) ...`), returning 403 when validation fails;
`.proceed` means the handler goes on to look up / create the session,
append to its history and send replies.  `signatureValid` stands for
`validateTwilioRequest(...)`. -/
def webhook_gate (workspaceId : Option String) (workspaceFound : Bool)
    (twilioConfig : Option TwilioConfig) (signatureHeader : Option String)
    (signatureValid : Bool) : WebhookGate :=
  if workspaceId.getD ("") = "" then WebhookGate.missingWorkspace
  else if !workspaceFound then WebhookGate.workspaceConfigError
  else
    match twilioConfig with
    | none => WebhookGate.twilioNotConfigured
    | some _ =>
        if signatureHeader.getD ("") = "" then WebhookGate.proceed
        else if !signatureValid then WebhookGate.invalidSignature
        else WebhookGate.proceed

/-- A concrete signature header value. -/
def sigA : String := "sig-1"

/-- A concrete Twilio configuration. -/
def cfgA : TwilioConfig :=
  { accountSid := "AC-1", configName := "CFG-1", whatsappNumber := "+1000" }

/-- Claim C5 (code bug): a request carrying no signature is not rejected.
With a configured workspace, an unverifiable request (validation would
fail) that simply omits the `x-twilio-signature` header proceeds to the
state-mutating part of the handler, while the same unverifiable request
with a signature header present is rejected with 403 — so signature
verification is bypassed exactly when the attacker omits the header,
contradicting the claim (and the code's stated purpose and audit BUG-004). -/
theorem webhook_unsigned_bypasses_verification :
    webhook_gate (some wsA) true (some cfgA) none false = WebhookGate.proceed ∧
    webhook_gate (some wsA) true (some cfgA) (some sigA) false =
      WebhookGate.invalidSignature := by
  decide

/-! ## Channel router: the `agent_message` handler (server.js lines 662-733) -/

/-- The routing data the handler reads from the `chat_sessions` row:
`history, channel, user_identifier, workspaces(twilio_configs)`. -/
structure AgentSessData where
  history : List Message
  channel : String
  userIdentifier : Option String
  twilioConfig : Option TwilioConfig
deriving DecidableEq, Repr

/-- The observable effects of one `agent_message` invocation. -/
structure AgentMsgEffects where
  savedHistory : Option (List Message)
  whatsappSend : Option (String × String)
  sessionRoomEmit : Option Message
  dashboardSentEmit : Bool
  callerEvents : List String
deriving DecidableEq, Repr

/-- The `agent_message` handler.  After fetching the row (`none` = fetch
error, handler returns having done nothing) it appends the message to the
stored history, then routes: channel `whatsapp` with a Twilio config and a
`user_identifier` present invokes `sendWhatsAppMessage(user_identifier,
message.content, twilioConfig)` — `sendOk = false` models the collaborator
throwing (`lib/twilio.ts` re-throws every failure), which the handler's
`catch` only logs (`console.error`), emitting nothing to the requesting
socket and skipping the `agent_message_sent` dashboard notification; with
routing data missing it only logs and continues; any other channel emits
the message to the session's socket room (whether or not anyone listens).
`callerEvents` records events emitted back to the requesting operator
socket — the handler never emits any. -/
def agent_message (sess : Option AgentSessData) (msg : Message) (sendOk : Bool) :
    AgentMsgEffects :=
  match sess with
  | none =>
      { savedHistory := none, whatsappSend := none, sessionRoomEmit := none,
        dashboardSentEmit := false, callerEvents := [] }
  | some s =>
      let updated := s.history ++ [msg]
      if s.channel = "whatsapp" then
        match s.twilioConfig, s.userIdentifier with
        | some _, some u =>
            if sendOk then
              { savedHistory := some updated, whatsappSend := some (u, msg.content),
                sessionRoomEmit := none, dashboardSentEmit := true, callerEvents := [] }
            else
              { savedHistory := some updated, whatsappSend := some (u, msg.content),
                sessionRoomEmit := none, dashboardSentEmit := false, callerEvents := [] }
        | _, _ =>
            { savedHistory := some updated, whatsappSend := none,
              sessionRoomEmit := none, dashboardSentEmit := true, callerEvents := [] }
      else
        { savedHistory := some updated, whatsappSend := none,
          sessionRoomEmit := some msg, dashboardSentEmit := true, callerEvents := [] }

/-- A WhatsApp-channel session row for the failure scenario. -/
def waSession : AgentSessData :=
  { history := [], channel := "whatsapp", userIdentifier := some ("+199"),
    twilioConfig := some cfgA }

/-- Claim C7 (counterexample): a phone-channel send failure is not surfaced.
When the Twilio send throws on an operator message to a WhatsApp
conversation, the handler emits no event whatsoever to the requesting
operator (`callerEvents = []`), and no delivery-failed outcome exists — the
failure is observable only as the skipped `agent_message_sent`
confirmation, while the message was already persisted. -/
theorem phone_send_failure_silent :
    (agent_message (some waSession) msgOp false).callerEvents = [] ∧
    (agent_message (some waSession) msgOp false).dashboardSentEmit = false ∧
    (agent_message (some waSession) msgOp false).savedHistory = some [msgOp] := by
  decide

/-- Claim C7 (amended): delivery is dispatched by the conversation's channel
— channel `whatsapp` (with routing data present) invokes the outbound send
with the conversation's external identifier and the message body, any other
channel broadcasts the message to the conversation's socket room regardless
of listeners — but a phone-channel send failure is caught and only logged:
no delivery-failed event reaches the caller, the only observable difference
being the skipped `agent_message_sent` dashboard confirmation. -/
theorem channel_router_dispatch (s sWeb : AgentSessData) (m : Message)
    (u : String) (cfg : TwilioConfig) (sendOk sendOk2 : Bool)
    (hch : s.channel = "whatsapp") (hcfg : s.twilioConfig = some cfg)
    (hu : s.userIdentifier = some u) (hweb : ¬ sWeb.channel = "whatsapp") :
    (agent_message (some s) m sendOk).whatsappSend = some (u, m.content) ∧
    (agent_message (some s) m sendOk).sessionRoomEmit = none ∧
    (agent_message (some s) m sendOk).callerEvents = [] ∧
    (agent_message (some s) m sendOk).dashboardSentEmit = sendOk ∧
    (agent_message (some sWeb) m sendOk2).sessionRoomEmit = some m ∧
    (agent_message (some sWeb) m sendOk2).whatsappSend = none ∧
    (agent_message (some sWeb) m sendOk2).dashboardSentEmit = true := by
  have hwa : agent_message (some s) m sendOk =
      (if sendOk then
        { savedHistory := some (s.history ++ [m]), whatsappSend := some (u, m.content),
          sessionRoomEmit := none, dashboardSentEmit := true, callerEvents := [] }
      else
        { savedHistory := some (s.history ++ [m]), whatsappSend := some (u, m.content),
          sessionRoomEmit := none, dashboardSentEmit := false, callerEvents := [] }) := by
    simp [agent_message, hch, hcfg, hu]
  have hwb : agent_message (some sWeb) m sendOk2 =
      { savedHistory := some (sWeb.history ++ [m]), whatsappSend := none,
        sessionRoomEmit := some m, dashboardSentEmit := true, callerEvents := [] } := by
    simp only [agent_message, if_neg hweb]
  cases sendOk <;> simp [hwa, hwb]

/-- A web-channel session row. -/
def webSession : AgentSessData :=
  { history := [], channel := "web", userIdentifier := none, twilioConfig := none }

/-- Witness for `channel_router_dispatch` at concrete sessions. -/
theorem channel_router_dispatch_witness :
    (waSession.channel = "whatsapp" ∧ waSession.twilioConfig = some cfgA ∧
      waSession.userIdentifier = some ("+199") ∧ ¬ webSession.channel = "whatsapp") ∧
    ((agent_message (some waSession) msgOp false).whatsappSend =
        some ("+199", msgOp.content) ∧
      (agent_message (some waSession) msgOp false).sessionRoomEmit = none ∧
      (agent_message (some waSession) msgOp false).callerEvents = [] ∧
      (agent_message (some waSession) msgOp false).dashboardSentEmit = false ∧
      (agent_message (some webSession) msgOp true).sessionRoomEmit = some msgOp ∧
      (agent_message (some webSession) msgOp true).whatsappSend = none ∧
      (agent_message (some webSession) msgOp true).dashboardSentEmit = true) :=
  ⟨⟨by decide, by decide, by decide, by decide⟩,
   channel_router_dispatch waSession webSession msgOp ("+199") cfgA false true
     (by decide) (by decide) (by decide) (by decide)⟩

/-! ## History: accepted message events on one conversation -/

/-- An accepted inbound/outbound message event on one conversation.
`userMsg` is the `user_message` handler, `agentMsg` the `agent_message`
handler, `phoneForward` the webhook's in-progress forwarding path (stores
`updatedHistory`), `phoneBotTurn` the webhook's bot-reply path (stores
`finalHistory = updatedHistory ++ [botMessage]`), `webApiMsg` a widget
message answered by the bot through `/api/chat` (the upsert persists
`[...clientHistory, userMessage, botMessage]` built from the
CLIENT-supplied history, not the stored one — `route.ts` lines 158-173),
and `phoneFirstContact` the webhook's new-session path, which accepts the
inbound message but inserts the session with `history: []`. -/
inductive ChatEvent where
  | userMsg (m : Message)
  | agentMsg (m : Message)
  | phoneForward (m : Message)
  | phoneBotTurn (u : Message) (b : Message)
  | webApiMsg (clientHistory : List Message) (u : Message) (b : Message)
  | phoneFirstContact
deriving DecidableEq, Repr

/-- Whether the event's handler appends to the freshly fetched persisted
history (true for the socket handlers and the webhook's forward/bot-reply
paths; false for the `/api/chat` upsert, which replaces the history with
the client-supplied list, and for the webhook's first contact, which
stores an empty history). -/
def appendsToStore : ChatEvent → Bool
  | ChatEvent.userMsg _ => true
  | ChatEvent.agentMsg _ => true
  | ChatEvent.phoneForward _ => true
  | ChatEvent.phoneBotTurn _ _ => true
  | ChatEvent.webApiMsg _ _ _ => false
  | ChatEvent.phoneFirstContact => false

/-- The messages an appending event contributes, in their stored order
(for the two replacing events: the fresh messages of the write). -/
def eventMessages : ChatEvent → List Message
  | ChatEvent.userMsg m => [m]
  | ChatEvent.agentMsg m => [m]
  | ChatEvent.phoneForward m => [m]
  | ChatEvent.phoneBotTurn u b => [u, b]
  | ChatEvent.webApiMsg _ u b => [u, b]
  | ChatEvent.phoneFirstContact => []

/-- The history update each accepted event performs, as written by the
corresponding handler: the four appending paths build `[...currentHistory,
message]` from the freshly fetched history; the `/api/chat` upsert writes
`[...clientHistory, userMessage, botMessage]` regardless of what is
stored; the webhook's first contact inserts `history: []`. -/
def applyChatEvent (h : List Message) : ChatEvent → List Message
  | ChatEvent.userMsg m => h ++ [m]
  | ChatEvent.agentMsg m => h ++ [m]
  | ChatEvent.phoneForward m => h ++ [m]
  | ChatEvent.phoneBotTurn u b => (h ++ [u]) ++ [b]
  | ChatEvent.webApiMsg clientHistory u b => clientHistory ++ [u, b]
  | ChatEvent.phoneFirstContact => []

/-- The persisted history after a sequence of accepted events, in
acceptance order. -/
def runChatEvents (h : List Message) (es : List ChatEvent) : List Message :=
  es.foldl applyChatEvent h

/-- The concatenation of the messages of a list of events, in order. -/
def eventsMessages : List ChatEvent → List Message
  | [] => []
  | e :: rest => eventMessages e ++ eventsMessages rest

theorem applyChatEvent_eq_append (h : List Message) (e : ChatEvent)
    (ha : appendsToStore e = true) :
    applyChatEvent h e = h ++ eventMessages e := by
  cases e <;> simp_all [applyChatEvent, eventMessages, appendsToStore]

theorem runChatEvents_eq_append (h : List Message) (es : List ChatEvent)
    (ha : ∀ e ∈ es, appendsToStore e = true) :
    runChatEvents h es = h ++ eventsMessages es := by
  induction es generalizing h with
  | nil => simp [runChatEvents, eventsMessages]
  | cons e rest ih =>
      have he : appendsToStore e = true := ha e (List.mem_cons_self e rest)
      have hrest : ∀ x ∈ rest, appendsToStore x = true :=
        fun x hx => ha x (List.mem_cons_of_mem e hx)
      have step : runChatEvents h (e :: rest) = runChatEvents (applyChatEvent h e) rest := rfl
      rw [step, ih (applyChatEvent h e) hrest, applyChatEvent_eq_append h e he]
      simp [eventsMessages]

theorem eventsMessages_append (a b : List ChatEvent) :
    eventsMessages (a ++ b) = eventsMessages a ++ eventsMessages b := by
  induction a with
  | nil => simp [eventsMessages]
  | cons e rest ih => simp [eventsMessages, ih]

/-- Claim C8 (counterexample): the persisted history does not grow
monotonically over all accepted message events.  With three messages
persisted, one accepted widget message answered through `/api/chat` whose
client sent an empty history upserts `history := [] ++ [userMsg, botMsg]`,
shrinking the persisted history from three messages to two and discarding
the stored ones. -/
theorem history_shrinks_on_web_api_message :
    runChatEvents [msgA, msgOp, msgB] [ChatEvent.webApiMsg [] msgA msgB] = [msgA, msgB] ∧
    ¬ ([msgA, msgOp, msgB] : List Message).length ≤
        (runChatEvents [msgA, msgOp, msgB] [ChatEvent.webApiMsg [] msgA msgB]).length := by
  decide

/-- Claim C8 (amended): over accepted message events whose handlers append
to the freshly fetched history — `user_message`, `agent_message`, and the
webhook's forward and bot-reply paths — the persisted history is
append-only (each partial run is a prefix of the next, so its length grows
monotonically) and equals the initial history followed by the accepted
messages in acceptance order; but a widget message answered through
`/api/chat` replaces the persisted history with the client-supplied
history plus the new user/assistant pair, and the webhook's first-contact
path stores an empty history, so across those two events the persisted
history can shrink or be rewritten. -/
theorem history_append_only_ordered_amended (h : List Message) (es : List ChatEvent)
    (ha : ∀ e ∈ es, appendsToStore e = true)
    (clientHistory : List Message) (u b : Message) :
    runChatEvents h es = h ++ eventsMessages es ∧
    (∀ n : Nat, ∃ t : List Message,
      runChatEvents h (es.take n) ++ t = runChatEvents h (es.take (n + 1))) ∧
    (∀ n : Nat,
      (runChatEvents h (es.take n)).length ≤ (runChatEvents h (es.take (n + 1))).length) ∧
    applyChatEvent h (ChatEvent.webApiMsg clientHistory u b) = clientHistory ++ [u, b] ∧
    applyChatEvent h ChatEvent.phoneFirstContact = [] := by
  have hpref : ∀ n : Nat, ∃ t : List Message,
      runChatEvents h (es.take n) ++ t = runChatEvents h (es.take (n + 1)) := by
    intro n
    refine ⟨eventsMessages (es.drop n |>.take 1), ?_⟩
    have htn : ∀ e ∈ es.take n, appendsToStore e = true :=
      fun e he => ha e (List.take_subset n es he)
    have htn1 : ∀ e ∈ es.take (n + 1), appendsToStore e = true :=
      fun e he => ha e (List.take_subset (n + 1) es he)
    rw [runChatEvents_eq_append h _ htn, runChatEvents_eq_append h _ htn1]
    rw [List.append_assoc]
    have htake : es.take (n + 1) = es.take n ++ (es.drop n).take 1 := by
      rw [← List.take_add]
    rw [htake, eventsMessages_append]
  refine ⟨runChatEvents_eq_append h es ha, hpref, ?_, rfl, rfl⟩
  intro n
  rcases hpref n with ⟨t, ht⟩
  rw [← ht]
  simp

/-- Witness for `history_append_only_ordered_amended` on a concrete run of
appending events. -/
theorem history_append_only_ordered_amended_witness :
    (∀ e ∈ [ChatEvent.userMsg msgA, ChatEvent.phoneBotTurn msgA msgB],
      appendsToStore e = true) ∧
    runChatEvents [] [ChatEvent.userMsg msgA, ChatEvent.phoneBotTurn msgA msgB] =
      [] ++ eventsMessages [ChatEvent.userMsg msgA, ChatEvent.phoneBotTurn msgA msgB] :=
  ⟨by decide,
   (history_append_only_ordered_amended []
     [ChatEvent.userMsg msgA, ChatEvent.phoneBotTurn msgA msgB]
     (by decide) [] msgA msgB).1⟩

/-! ## Inactivity reaper (`closeInactiveChats`, server.js lines 1098-1142) -/

/-- The fields of a `chat_sessions` row read and written by the sweep. -/
structure StoreRow where
  id : String
  workspaceId : String
  status : Status
  updatedAt : Nat
  endedAt : Option Nat
deriving DecidableEq, Repr

/-- The 24-hour inactivity threshold (ms). -/
def inactivityThresholdMs : Nat := 24 * 60 * 60 * 1000

/-- The sweep's `WHERE` clause: `status IN ('in_progress', 'pending',
'bot') AND updated_at < now - 24h`. -/
def eligibleForClose (now : Nat) (r : StoreRow) : Bool :=
  (r.status == Status.in_progress || r.status == Status.pending || r.status == Status.bot)
    && decide (r.updatedAt < now - inactivityThresholdMs)

/-- The sweep's `UPDATE ... SET status = 'closed', ended_at = now`. -/
def closeRow (now : Nat) (r : StoreRow) : StoreRow :=
  { r with status := Status.closed, endedAt := some now }

/-- `closeInactiveChats`: updates every eligible row to `closed` and
returns (updated store, ids of the rows it closed — the `select` the
handler broadcasts over).  `updated_at` is not written by the sweep. -/
def closeInactiveChats (now : Nat) (store : List StoreRow) :
    List StoreRow × List String :=
  (store.map (fun r => if eligibleForClose now r then closeRow now r else r),
   (store.filter (fun r => eligibleForClose now r)).map (fun r => r.id))

theorem eligible_iff_nonterminal (now : Nat) (r : StoreRow) :
    eligibleForClose now r = true ↔
      (¬ r.status = Status.closed ∧ r.updatedAt < now - inactivityThresholdMs) := by
  cases hr : r.status <;>
    simp [eligibleForClose, hr]

theorem eligibleForClose_after (now : Nat) (r : StoreRow) :
    eligibleForClose now (if eligibleForClose now r then closeRow now r else r) = false := by
  by_cases h : eligibleForClose now r = true
  · simp only [h, if_pos]
    simp [closeRow, eligibleForClose]
  · simp only [Bool.not_eq_true] at h
    simp [h]

/-- Claim C9: the sweep closes exactly the store-resident rows whose status
is non-terminal and whose `updated_at` is older than the 24-hour threshold
(and leaves every other row unchanged), and it is idempotent: run again
immediately on its own output it closes nothing and changes nothing. -/
theorem reaper_exact_and_idempotent (now : Nat) (store : List StoreRow) :
    (closeInactiveChats now store).2 =
      (store.filter (fun r =>
        decide (¬ r.status = Status.closed) &&
          decide (r.updatedAt < now - inactivityThresholdMs))).map (fun r => r.id) ∧
    (closeInactiveChats now store).1 =
      store.map (fun r =>
        if ¬ r.status = Status.closed ∧ r.updatedAt < now - inactivityThresholdMs then
          closeRow now r else r) ∧
    closeInactiveChats now (closeInactiveChats now store).1 =
      ((closeInactiveChats now store).1, []) := by
  have hfil : ∀ r : StoreRow, eligibleForClose now r =
      (decide (¬ r.status = Status.closed) &&
        decide (r.updatedAt < now - inactivityThresholdMs)) := by
    intro r
    by_cases h : eligibleForClose now r = true
    · rcases (eligible_iff_nonterminal now r).mp h with ⟨h1, h2⟩
      simp [h, h1, h2]
    · simp only [Bool.not_eq_true] at h
      rw [h]
      by_cases h1 : r.status = Status.closed
      · simp [h1]
      · have h2 : ¬ r.updatedAt < now - inactivityThresholdMs := by
          intro hc
          exact absurd ((eligible_iff_nonterminal now r).mpr ⟨h1, hc⟩) (by simp [h])
        simp [h1, h2]
  refine ⟨?_, ?_, ?_⟩
  · simp only [closeInactiveChats]
    congr 1
    refine List.filter_congr ?_
    intro r _
    exact hfil r
  · simp only [closeInactiveChats]
    refine List.map_congr_left ?_
    intro r _
    rw [hfil r]
    by_cases h1 : ¬ r.status = Status.closed ∧ r.updatedAt < now - inactivityThresholdMs
    · simp [h1.1, h1.2]
    · rw [if_neg h1]
      have : (decide (¬ r.status = Status.closed) &&
          decide (r.updatedAt < now - inactivityThresholdMs)) = false := by
        rcases Decidable.not_and_iff_or_not.mp h1 with h | h
        · simp [Decidable.not_not.mp (by simpa using h)]
        · simp [h]
      rw [this]
      simp
  · simp only [closeInactiveChats, List.map_map, Prod.mk.injEq]
    refine ⟨?_, ?_⟩
    · refine List.map_congr_left ?_
      intro r _
      simp only [Function.comp_apply]
      rw [if_neg (by simp [eligibleForClose_after now r])]
    · rw [List.filter_eq_nil_iff.mpr ?_]
      · simp
      · intro r hr
        rcases List.mem_map.mp hr with ⟨x, _, hx⟩
        rw [← hx]
        simp [eligibleForClose_after now x]

end DingDon
